import Mathlib

/-!
Shallow embedding of `src/main.rs` of rs-uniswap-watcher-test.

The program watches pending Ethereum transactions, matches their
destination against a fixed registry of Uniswap V2 routers, and checks
the call-data selector.  We model:

* `get_abi`   — the durable, address-keyed ABI cache (lines 34-64);
* `startup`   — env loading, factory/router registry construction
                (lines 66-102);
* `processTx` — the per-transaction body of the stream loop
                (lines 106-132);
* `pump` / `runMain` — the stream loop itself (lines 104-134).

Modelling conventions:
* A Rust panic (`unwrap` / `expect`) and a propagated `?` error both
  surface as `Except.error msg`; the message records which one fired.
* The filesystem is assumed reliable: the durable store is a list of
  (address, contents) pairs, and the `serde_json` round-trip on a
  well-formed `Abi` is modelled as the identity on its canonical
  serialized form, so an ABI is just its `String` serialization.
* `Address` is the 20-byte value of an `H160`, as a list of byte values.
-/

namespace UniswapWatcher

abbrev Address := List Nat

/-- Value of one hexadecimal digit, as in the `hex` crate. -/
def hexVal (c : Char) : Option Nat :=
  if '0' ≤ c ∧ c ≤ '9' then some (c.toNat - 48)
  else if 'a' ≤ c ∧ c ≤ 'f' then some (c.toNat - 87)
  else if 'A' ≤ c ∧ c ≤ 'F' then some (c.toNat - 55)
  else none

/-- Decode a list of hex digits, two per byte; `none` on a bad digit or
odd length. -/
def parseBytes : List Char → Option (List Nat)
  | [] => some []
  | [_] => none
  | c1 :: c2 :: rest =>
    match hexVal c1, hexVal c2, parseBytes rest with
    | some h, some l, some bs => some ((16 * h + l) :: bs)
    | _, _, _ => none

/-- Drop a leading "0x", as `fixed_hash`'s `FromStr` does. -/
def strip0x : List Char → List Char
  | '0' :: 'x' :: rest => rest
  | cs => cs

/-- `"...".parse::<Address>()`: optional 0x prefix, then exactly 40 hex
digits (no checksum validation). -/
def parseAddress (s : String) : Except String Address :=
  let cs := strip0x s.data
  if cs.length = 40 then
    match parseBytes cs with
    | some bs => Except.ok bs
    | none => Except.error "Invalid character"
  else Except.error "Invalid input length"

/-- `<[u8; n]>::from_hex(s)` of the `hex` crate: no 0x stripping, the
input must be exactly `2*n` hex digits. -/
def fromHexArr (n : Nat) (s : String) : Except String (List Nat) :=
  let cs := s.data
  if cs.length % 2 ≠ 0 then Except.error "OddLength"
  else if cs.length ≠ 2 * n then Except.error "InvalidStringLength"
  else
    match parseBytes cs with
    | some bs => Except.ok bs
    | none => Except.error "InvalidHexCharacter"

/-- `input_data.starts_with(prefix_bytes)` on byte slices. -/
def listStartsWith : List Nat → List Nat → Bool
  | _, [] => true
  | [], _ :: _ => false
  | a :: as, b :: bs => (a == b) && listStartsWith as bs

/-- `struct Factory` (main.rs lines 14-20). -/
structure Factory where
  address : Address
  abi : String
  name : String
  version : Nat
deriving Repr, DecidableEq

/-- `struct Router` (main.rs lines 22-29). -/
structure Router where
  address : Address
  abi : String
  name : String
  version : Nat
  factory : List Factory
deriving Repr, DecidableEq

/-- The two environment values the program reads via `dotenv::var`. -/
structure Env where
  eth_ws_url : Option String
  etherscan_api_key : Option String
deriving Repr, DecidableEq

/-- The durable `.cache` directory: one record per address, holding the
raw serialized ABI. -/
abbrev Cache := List (Address × String)

/-- `cache_file.exists()` + `read_to_string`: the record stored for an
address, if any. -/
def lookupCache (cache : Cache) (a : Address) : Option String :=
  (cache.find? (fun p => p.1 == a)).map (fun p => p.2)

deriving instance DecidableEq for Except

/-- Result of one `get_abi` call: the returned value (or panic /
propagated error), the durable cache afterwards, and how many upstream
Etherscan calls were made. -/
structure AbiOut where
  result : Except String String
  cache : Cache
  fetches : Nat
deriving Repr, DecidableEq

/-- `get_abi` (main.rs lines 34-64).  Checks the durable record first
and returns it without any network call; otherwise it requires the
`ETHERSCAN_API_KEY` (an `expect`, i.e. a panic when absent), performs
one upstream fetch, and on success persists the result before returning
it.  On fetch failure the `?` propagates the error before the
`std::fs::write`, so the cache is unchanged. -/
def get_abi (env : Env) (fetch : Address → Except String String)
    (cache : Cache) (a : Address) : AbiOut :=
  match lookupCache cache a with
  | some s => { result := Except.ok s, cache := cache, fetches := 0 }
  | none =>
    match env.etherscan_api_key with
    | none =>
      { result := Except.error "ETHERSCAN_API_KEY missing", cache := cache
        fetches := 0 }
    | some _ =>
      match fetch a with
      | Except.error e =>
        { result := Except.error e, cache := cache, fetches := 1 }
      | Except.ok abi =>
        { result := Except.ok abi, cache := (a, abi) :: cache, fetches := 1 }

/-- The three seed address strings of main.rs lines 80, 89, 96. -/
def factoryAddrStr : String := "0x5C69bEe701ef814a2B6a3EDD4B1652CB9cc5aA6f"

def router1AddrStr : String := "0xf164fC0Ec4E93095b804a4795bBe1e041497b92a"

def router2AddrStr : String := "0x7a250d5630B4cF539739dF2C5dAcb4c659F2488D"

/-- The parsed factory address (20 bytes). -/
def factoryAddr : Address :=
  match parseAddress factoryAddrStr with
  | Except.ok a => a
  | Except.error _ => []

def router1Addr : Address :=
  match parseAddress router1AddrStr with
  | Except.ok a => a
  | Except.error _ => []

def router2Addr : Address :=
  match parseAddress router2AddrStr with
  | Except.ok a => a
  | Except.error _ => []

/-- Startup of `main` (lines 67-102): read `ETH_WS_URL` (an `expect`,
fatal when absent), then build the factory and the two routers, each
ABI resolved through `get_abi` with the `?` operator, so the first
failure aborts `main` with that error and no router list exists. -/
def startup (env : Env) (fetch : Address → Except String String)
    (cache0 : Cache) : Except String (List Router × Cache × Nat) :=
  match env.eth_ws_url with
  | none => Except.error "ETH_WS_URL missing"
  | some _ =>
    match parseAddress factoryAddrStr with
    | Except.error e => Except.error e
    | Except.ok fAddr =>
      let o1 := get_abi env fetch cache0 fAddr
      match o1.result with
      | Except.error e => Except.error e
      | Except.ok fAbi =>
        let factory_v2 : Factory :=
          { address := fAddr, abi := fAbi, name := "Uniswap V2", version := 2 }
        match parseAddress router1AddrStr with
        | Except.error e => Except.error e
        | Except.ok a1 =>
          let o2 := get_abi env fetch o1.cache a1
          match o2.result with
          | Except.error e => Except.error e
          | Except.ok abi1 =>
            match parseAddress router2AddrStr with
            | Except.error e => Except.error e
            | Except.ok a2 =>
              let o3 := get_abi env fetch o2.cache a2
              match o3.result with
              | Except.error e => Except.error e
              | Except.ok abi2 =>
                Except.ok
                  ([{ address := a1, abi := abi1, name := "Uniswap V2"
                      version := 2, factory := [factory_v2] },
                    { address := a2, abi := abi2
                      name := "Uniswap V2: Router 2", version := 2
                      factory := [factory_v2] }],
                   o3.cache, o1.fetches + o2.fetches + o3.fetches)

/-- A pending transaction as the loop sees it: `tx.to : Option<Address>`
and `tx.input` as raw bytes. -/
structure Tx where
  destination : Option Address
  input : List Nat
deriving Repr, DecidableEq

/-- Observable outcome of one pass of the loop body. -/
inductive Outcome where
  /-- `get_transaction` returned `None`: skipped silently. -/
  | skipped : Outcome
  /-- the `None` arm of `match Some(tx.to)` (line 130) — unreachable. -/
  | destNone : Outcome
  /-- destination present but no router matched: nothing printed. -/
  | noRouter : Outcome
  /-- router matched, selector comparison false. -/
  | routerNoSelector (name : String) : Outcome
  /-- router matched and selector matched: the tx is logged. -/
  | selectorHit (name : String) : Outcome
deriving Repr, DecidableEq

/-- The loop body for one fetched transaction (main.rs lines 107-131).
`match Some(tx.to)` always takes the `Some` arm with `to = tx.to`
unchanged, so the following `to.unwrap()` panics when `tx.to` is
absent.  When a router matches, the selector prefix is built by
`<[u8; 12]>::from_hex("0x18cbafe5").unwrap()`, whose argument has 10
characters instead of 24, so `from_hex` always fails and the `unwrap`
panics.  The parameter-decoding block is commented out in the source,
so a selector hit only logs the transaction. -/
def processTx (routers : List Router) (tx : Tx) : Except String Outcome :=
  match some tx.destination with
  | some t =>
    match t with
    | none => Except.error "panic: Option::unwrap on None"
    | some dest =>
      match routers.find? (fun r => r.address == dest) with
      | none => Except.ok Outcome.noRouter
      | some router =>
        match fromHexArr 12 "0x18cbafe5" with
        | Except.error e => Except.error ("panic: from_hex: " ++ e)
        | Except.ok sel =>
          if listStartsWith tx.input sel then
            Except.ok (Outcome.selectorHit router.name)
          else Except.ok (Outcome.routerNoSelector router.name)
  | none => Except.ok Outcome.destNone

/-- The stream loop (main.rs lines 105-133): each feed event yields an
optional transaction body (`get_transaction` may return `None`, which
is skipped); a panic in the body aborts the whole loop. -/
def pump (routers : List Router) : List (Option Tx) → Except String (List Outcome)
  | [] => Except.ok []
  | none :: rest => (pump routers rest).map (fun os => Outcome.skipped :: os)
  | some tx :: rest =>
    match processTx routers tx with
    | Except.error e => Except.error e
    | Except.ok o => (pump routers rest).map (fun os => o :: os)

/-- `main` end to end: startup, then the stream loop over the given
feed.  A startup failure means the loop never runs. -/
def runMain (env : Env) (fetch : Address → Except String String)
    (cache : Cache) (feed : List (Option Tx)) : Except String (List Outcome) :=
  match startup env fetch cache with
  | Except.error e => Except.error e
  | Except.ok (routers, _, _) => pump routers feed

/-- A well-formed environment with both values present. -/
def envFull : Env :=
  { eth_ws_url := some "wss://node.example", etherscan_api_key := some "KEY" }

/-- An environment missing only the Etherscan credential. -/
def envNoKey : Env :=
  { eth_ws_url := some "wss://node.example", etherscan_api_key := none }

/-- An upstream lookup that always succeeds. -/
def fetchOk : Address → Except String String := fun _ => Except.ok "abi-json"

/-- An upstream lookup that always fails. -/
def fetchFail : Address → Except String String :=
  fun _ => Except.error "etherscan unreachable"

/-- The registry the program builds on a successful startup (cold
cache, upstream available). -/
def theRouters : List Router :=
  match startup envFull fetchOk [] with
  | Except.ok (rs, _, _) => rs
  | Except.error _ => []

/-- A cache already holding a record for every seed address. -/
def warmCache : Cache :=
  [(factoryAddr, "factory-abi"), (router1Addr, "router1-abi"),
   (router2Addr, "router2-abi")]

/-- One 32-byte ABI word holding a small number. -/
def word (n : Nat) : List Nat := List.replicate 31 0 ++ [n]

/-- A 20-byte address left-padded to a 32-byte ABI word. -/
def padAddress (a : Address) : List Nat := List.replicate 12 0 ++ a

/-- The 4 selector bytes of `swapExactETHForTokens`. -/
def swapSelector : List Nat := [0x18, 0xcb, 0xaf, 0xe5]

/-- A correctly ABI-encoded parameter block for
`swapExactETHForTokens(uint256,address[],address,uint256)`:
amountOutMin = 0, the dynamic path at offset 0x80 with two addresses,
a recipient, and deadline 255. -/
def validSwapParams : List Nat :=
  word 0 ++ word 128 ++ padAddress (List.replicate 19 0 ++ [5]) ++ word 255 ++
    word 2 ++ padAddress (List.replicate 19 0 ++ [7]) ++
    padAddress (List.replicate 19 0 ++ [9])

/-- A swap transaction addressed to Router 2 with a fully valid
selector-plus-parameters payload. -/
def txValidSwap : Tx :=
  { destination := some router2Addr, input := swapSelector ++ validSwapParams }

/-- A transaction to Router 1 whose call data is a single byte. -/
def txShortInput : Tx := { destination := some router1Addr, input := [0x18] }

/-- A contract-creation transaction: no destination. -/
def txCreate : Tx := { destination := none, input := [0, 1, 2, 3] }

/-- A harmless transaction to an address outside the registry. -/
def txBefore : Tx :=
  { destination := some (List.replicate 20 2), input := [1, 2, 3, 4] }

/-- A transaction to Router 1 whose call data is the matching selector
followed by malformed (undecodable) parameter bytes. -/
def txMalformed : Tx :=
  { destination := some router1Addr, input := swapSelector ++ [255] }

/-- Another harmless transaction, delivered after the malformed one. -/
def txAfter : Tx :=
  { destination := some (List.replicate 20 3), input := [] }

/-- C1: the claim says a transaction with an absent destination yields
`NoMatch` without a crash.  The code instead panics: `match
Some(tx.to)` always enters the `Some` arm with the unmodified option,
and `to.unwrap()` then panics on `None` (main.rs lines 107-109), so
processing a contract-creation transaction aborts the process. -/
theorem c1_contract_creation_panics :
    processTx theRouters txCreate = Except.error "panic: Option::unwrap on None" := by
  rfl

/-- C2: the claim says a transaction to a registry router whose input
is the selector `0x18cbafe5` plus validly encoded parameters decodes
successfully into an Observation.  The code instead panics on every
router-matched transaction: `<[u8; 12]>::from_hex("0x18cbafe5")` gets a
10-character string where 24 hex digits are required, so it returns an
error and the `unwrap` on it panics (main.rs line 116); the actual
parameter decoding is commented out (lines 117-124). -/
theorem c2_valid_swap_panics :
    fromHexArr 12 "0x18cbafe5" = Except.error "InvalidStringLength" ∧
      processTx theRouters txValidSwap =
        Except.error "panic: from_hex: InvalidStringLength" := by
  exact ⟨rfl, rfl⟩

/-- C3: the claim says call data shorter than 4 bytes on a registry
router yields `NoMatch` and never crashes.  The code panics before even
looking at the input: the selector constant itself is built by a
failing `from_hex(...).unwrap()` (main.rs line 116), which runs for
every router-matched transaction regardless of input length. -/
theorem c3_short_input_panics :
    txShortInput.input.length < 4 ∧
      processTx theRouters txShortInput =
        Except.error "panic: from_hex: InvalidStringLength" := by
  exact ⟨by decide, rfl⟩

/-- C8: the claim says one transaction's decode failure never halts the
stream and yields a reported `DecodeError`.  In the code a
router-matched transaction (malformed parameters or not) panics at the
`from_hex(...).unwrap()` (main.rs line 116), aborting the whole pump
loop: the transaction delivered after it is never processed, and no
`DecodeError` value exists anywhere in the program. -/
theorem c8_stream_halts_on_malformed_tx :
    pump theRouters [some txBefore, some txMalformed, some txAfter] =
      Except.error "panic: from_hex: InvalidStringLength" := by
  rfl

/-- C4: a transaction whose (present) destination matches no router
address in the registry is classified `NoMatch` (the loop body does
nothing for it), whatever its call data holds. -/
theorem c4_unknown_destination_no_match (d : Address) (input : List Nat)
    (h : ∀ r ∈ theRouters, r.address ≠ d) :
    processTx theRouters { destination := some d, input := input } =
      Except.ok Outcome.noRouter := by
  have hf : theRouters.find? (fun r => r.address == d) = none := by
    rw [List.find?_eq_none]
    intro r hr
    simpa using h r hr
  unfold processTx
  simp [hf]

/-- Witness for C4 at the all-zero address. -/
theorem c4_witness :
    (∀ r ∈ theRouters, r.address ≠ List.replicate 20 0) ∧
      processTx theRouters
          { destination := some (List.replicate 20 0), input := [0, 1, 2, 3, 4] } =
        Except.ok Outcome.noRouter :=
  ⟨by decide,
   c4_unknown_destination_no_match (List.replicate 20 0) [0, 1, 2, 3, 4] (by decide)⟩

/-- C10: destination matching uses only router addresses.  The factory
address is referenced by both routers but is not a key of the registry,
so a transaction addressed to the factory is a `NoMatch`, whatever its
call data. -/
theorem c10_factory_destination_no_match (input : List Nat) :
    processTx theRouters { destination := some factoryAddr, input := input } =
      Except.ok Outcome.noRouter := by
  have hf : theRouters.find? (fun r => r.address == factoryAddr) = none := by
    decide
  unfold processTx
  simp [hf]

/-- Witness for C10 with empty call data. -/
theorem c10_witness :
    processTx theRouters { destination := some factoryAddr, input := [] } =
      Except.ok Outcome.noRouter :=
  c10_factory_destination_no_match []

/-- C5: when a durable record for an address exists, `get_abi` returns
its deserialized contents with zero upstream fetches and an unchanged
cache; and after any successful `get_abi` call, a second call for the
same address performs zero upstream fetches and returns the same data,
leaving the cache as it was after the first call. -/
theorem c5_cache_idempotent (env : Env) (fetch : Address → Except String String)
    (cache : Cache) (a : Address) :
    (∀ s, lookupCache cache a = some s →
        get_abi env fetch cache a = ⟨Except.ok s, cache, 0⟩) ∧
    (∀ abi, (get_abi env fetch cache a).result = Except.ok abi →
        get_abi env fetch (get_abi env fetch cache a).cache a =
          ⟨Except.ok abi, (get_abi env fetch cache a).cache, 0⟩) := by
  constructor
  · intro s hs
    unfold get_abi
    rw [hs]
  · intro abi habi
    cases hc : lookupCache cache a with
    | some s =>
      have h1 : get_abi env fetch cache a = ⟨Except.ok s, cache, 0⟩ := by
        unfold get_abi; rw [hc]
      rw [h1] at habi ⊢
      cases habi
      unfold get_abi
      rw [hc]
    | none =>
      cases hk : env.etherscan_api_key with
      | none =>
        have h1 : get_abi env fetch cache a =
            ⟨Except.error "ETHERSCAN_API_KEY missing", cache, 0⟩ := by
          unfold get_abi; rw [hc, hk]
        rw [h1] at habi
        cases habi
      | some k =>
        cases hf : fetch a with
        | error e =>
          have h1 : get_abi env fetch cache a = ⟨Except.error e, cache, 1⟩ := by
            unfold get_abi; rw [hc, hk, hf]
          rw [h1] at habi
          cases habi
        | ok v =>
          have h1 : get_abi env fetch cache a =
              ⟨Except.ok v, (a, v) :: cache, 1⟩ := by
            unfold get_abi; rw [hc, hk, hf]
          rw [h1] at habi ⊢
          injection habi with hva
          subst hva
          have h2 : lookupCache ((a, v) :: cache) a = some v := by
            simp [lookupCache, List.find?]
          unfold get_abi
          rw [h2]

/-- Witness for C5: a one-entry cache is hit without any fetch. -/
theorem c5_witness :
    lookupCache [(List.replicate 20 1, "cached-abi")] (List.replicate 20 1) =
        some "cached-abi" ∧
      get_abi envFull fetchOk [(List.replicate 20 1, "cached-abi")]
          (List.replicate 20 1) =
        ⟨Except.ok "cached-abi", [(List.replicate 20 1, "cached-abi")], 0⟩ :=
  ⟨by decide,
   (c5_cache_idempotent envFull fetchOk [(List.replicate 20 1, "cached-abi")]
       (List.replicate 20 1)).1 "cached-abi" (by decide)⟩

/-- C6: with no cached record and a failing upstream lookup, `get_abi`
propagates exactly that error (the `?` fires before `std::fs::write`),
so the durable cache is unchanged and no partial record exists. -/
theorem c6_lookup_failure_leaves_cache (env : Env)
    (fetch : Address → Except String String) (cache : Cache) (a : Address)
    (k e : String) (hk : env.etherscan_api_key = some k)
    (hc : lookupCache cache a = none) (hf : fetch a = Except.error e) :
    get_abi env fetch cache a = ⟨Except.error e, cache, 1⟩ := by
  unfold get_abi
  rw [hc, hk, hf]

/-- Witness for C6: a cold cache plus an unreachable upstream. -/
theorem c6_witness :
    envFull.etherscan_api_key = some "KEY" ∧
      lookupCache [] factoryAddr = none ∧
      fetchFail factoryAddr = Except.error "etherscan unreachable" ∧
      get_abi envFull fetchFail [] factoryAddr =
        ⟨Except.error "etherscan unreachable", [], 1⟩ :=
  ⟨rfl, rfl, rfl,
   c6_lookup_failure_leaves_cache envFull fetchFail [] factoryAddr "KEY"
     "etherscan unreachable" rfl rfl rfl⟩

/-- The factory seed string parses to `factoryAddr`. -/
theorem parseFactoryAddr_eq : parseAddress factoryAddrStr = Except.ok factoryAddr :=
  rfl

/-- The first router seed string parses to `router1Addr`. -/
theorem parseRouter1Addr_eq : parseAddress router1AddrStr = Except.ok router1Addr :=
  rfl

/-- The second router seed string parses to `router2Addr`. -/
theorem parseRouter2Addr_eq : parseAddress router2AddrStr = Except.ok router2Addr :=
  rfl

/-- C7: registry construction is fail-fast.  Whichever of the three
seed resolutions (factory, router 1, router 2) is the first to fail,
`startup` aborts with exactly that error; a successful startup always
carries the full two-router registry; and a failed startup means the
classification loop never runs at all. -/
theorem c7_registry_fail_fast (env : Env) (fetch : Address → Except String String)
    (cache : Cache) (u : String) (hurl : env.eth_ws_url = some u) :
    (∀ e, (get_abi env fetch cache factoryAddr).result = Except.error e →
        startup env fetch cache = Except.error e) ∧
    (∀ e abi1, (get_abi env fetch cache factoryAddr).result = Except.ok abi1 →
        (get_abi env fetch (get_abi env fetch cache factoryAddr).cache
            router1Addr).result = Except.error e →
        startup env fetch cache = Except.error e) ∧
    (∀ e abi1 abi2, (get_abi env fetch cache factoryAddr).result = Except.ok abi1 →
        (get_abi env fetch (get_abi env fetch cache factoryAddr).cache
            router1Addr).result = Except.ok abi2 →
        (get_abi env fetch
            (get_abi env fetch (get_abi env fetch cache factoryAddr).cache
                router1Addr).cache router2Addr).result = Except.error e →
        startup env fetch cache = Except.error e) ∧
    (∀ rs c n, startup env fetch cache = Except.ok (rs, c, n) → rs.length = 2) ∧
    (∀ e feed, startup env fetch cache = Except.error e →
        runMain env fetch cache feed = Except.error e) := by
  refine ⟨?_, ?_, ?_, ?_, ?_⟩
  · intro e h1
    simp only [startup, hurl, parseFactoryAddr_eq, h1]
  · intro e abi1 h1 h2
    simp only [startup, hurl, parseFactoryAddr_eq, parseRouter1Addr_eq, h1, h2]
  · intro e abi1 abi2 h1 h2 h3
    simp only [startup, hurl, parseFactoryAddr_eq, parseRouter1Addr_eq,
      parseRouter2Addr_eq, h1, h2, h3]
  · intro rs c n h
    cases h1 : (get_abi env fetch cache factoryAddr).result with
    | error e =>
      simp only [startup, hurl, parseFactoryAddr_eq, h1] at h
      exact Except.noConfusion h
    | ok abi1 =>
      cases h2 : (get_abi env fetch (get_abi env fetch cache factoryAddr).cache
          router1Addr).result with
      | error e =>
        simp only [startup, hurl, parseFactoryAddr_eq, parseRouter1Addr_eq,
          h1, h2] at h
        exact Except.noConfusion h
      | ok abi2 =>
        cases h3 : (get_abi env fetch
            (get_abi env fetch (get_abi env fetch cache factoryAddr).cache
                router1Addr).cache router2Addr).result with
        | error e =>
          simp only [startup, hurl, parseFactoryAddr_eq, parseRouter1Addr_eq,
            parseRouter2Addr_eq, h1, h2, h3] at h
          exact Except.noConfusion h
        | ok abi3 =>
          simp only [startup, hurl, parseFactoryAddr_eq, parseRouter1Addr_eq,
            parseRouter2Addr_eq, h1, h2, h3, Except.ok.injEq, Prod.mk.injEq] at h
          obtain ⟨hrs, -⟩ := h
          rw [← hrs]
          rfl
  · intro e feed h
    simp only [runMain, h]

/-- Witness for C7: an unreachable upstream with a cold cache makes the
very first resolution fail, and startup aborts with that error. -/
theorem c7_witness :
    envFull.eth_ws_url = some "wss://node.example" ∧
      (get_abi envFull fetchFail [] factoryAddr).result =
        Except.error "etherscan unreachable" ∧
      startup envFull fetchFail [] = Except.error "etherscan unreachable" :=
  ⟨rfl, rfl,
   (c7_registry_fail_fast envFull fetchFail [] "wss://node.example" rfl).1
     "etherscan unreachable" rfl⟩

/-- C9 counterexample: with every seed address already cached, a
missing `ETHERSCAN_API_KEY` is not fatal — startup succeeds and the
classification loop runs, contradicting "absence of either value is a
fatal startup error regardless of cache contents". -/
theorem c9_counterexample :
    envNoKey.etherscan_api_key = none ∧
      runMain envNoKey fetchFail warmCache
          [some { destination := some (List.replicate 20 4), input := [] }] =
        Except.ok [Outcome.noRouter] := by
  exact ⟨rfl, by rfl⟩

/-- C9 (amended): a missing `ETH_WS_URL` is always fatal at startup;
a missing `ETHERSCAN_API_KEY` is fatal at startup exactly when it is
consulted, i.e. when at least one seed address has no durable cache
record — with all three seeds cached the credential is never read. -/
theorem c9_env_requirements (env : Env) (fetch : Address → Except String String)
    (cache : Cache) :
    (env.eth_ws_url = none →
        ∀ feed, runMain env fetch cache feed = Except.error "ETH_WS_URL missing") ∧
    (∀ u, env.eth_ws_url = some u → env.etherscan_api_key = none →
        (lookupCache cache factoryAddr = none ∨
          lookupCache cache router1Addr = none ∨
          lookupCache cache router2Addr = none) →
        ∀ feed,
          runMain env fetch cache feed =
            Except.error "ETHERSCAN_API_KEY missing") := by
  constructor
  · intro h feed
    simp only [runMain, startup, h]
  · intro u hu hkey hmiss feed
    have hga : ∀ a, lookupCache cache a = none →
        get_abi env fetch cache a =
          ⟨Except.error "ETHERSCAN_API_KEY missing", cache, 0⟩ := by
      intro a ha
      unfold get_abi
      rw [ha, hkey]
    have hgaHit : ∀ a s, lookupCache cache a = some s →
        get_abi env fetch cache a = ⟨Except.ok s, cache, 0⟩ := by
      intro a s ha
      unfold get_abi
      rw [ha]
    cases hc1 : lookupCache cache factoryAddr with
    | none =>
      simp only [runMain, startup, hu, parseFactoryAddr_eq, hga factoryAddr hc1]
    | some s1 =>
      cases hc2 : lookupCache cache router1Addr with
      | none =>
        simp only [runMain, startup, hu, parseFactoryAddr_eq,
          parseRouter1Addr_eq, hgaHit factoryAddr s1 hc1,
          hga router1Addr hc2]
      | some s2 =>
        cases hc3 : lookupCache cache router2Addr with
        | none =>
          simp only [runMain, startup, hu, parseFactoryAddr_eq,
            parseRouter1Addr_eq, parseRouter2Addr_eq,
            hgaHit factoryAddr s1 hc1, hgaHit router1Addr s2 hc2,
            hga router2Addr hc3]
        | some s3 =>
          rcases hmiss with h | h | h <;> simp_all

/-- Witness for C9 (amended): a cold cache with no credential fails at
startup, before any classification. -/
theorem c9_witness :
    runMain envNoKey fetchFail [] [] = Except.error "ETHERSCAN_API_KEY missing" :=
  (c9_env_requirements envNoKey fetchFail []).2 "wss://node.example" rfl rfl
    (Or.inl rfl) []

end UniswapWatcher
